import Mathlib

/-!
Verification of the phogallery repository: a shallow embedding of the
Strapi socket-io hook (`src/backend/src/hooks/socket-io/index.ts`), the
frontend gallery store (`src/frontend/src/stores/gallery.ts`), the
real-time composable (`useRealTimeGallery`), and the Strapi client
service (`src/frontend/src/services/strapi.ts`), together with proofs of
the specification claims about them.
-/

/-- A photo record as stored by `strapi.entityService` for
`api::photo.photo`.  `likeCount` and `viewCount` are nullable integer
columns (schema default 0, min 0); a missing value is `none`, matching
the `photo.likeCount || 0` reads in the hook. -/
structure PhotoRec where
  likeCount : Option Nat
  viewCount : Option Nat
  deriving DecidableEq

/-- The backing store: `documentId ↦ PhotoRec`, as an association list. -/
abbrev Store := List (String × PhotoRec)

/-- `strapi.entityService.findOne('api::photo.photo', pid)`. -/
def findOne : Store → String → Option PhotoRec
  | [], _ => none
  | e :: s, pid => if e.1 = pid then some e.2 else findOne s pid

/-- `strapi.entityService.update('api::photo.photo', pid, { data })`:
applies the data patch `f` to the record named `pid` and also returns
the updated record (the JS call resolves to the updated photo), `none`
when no such record exists. -/
def entityUpdate : Store → String → (PhotoRec → PhotoRec) → Store × Option PhotoRec
  | [], _, _ => ([], none)
  | e :: s, pid, f =>
    if e.1 = pid then ((e.1, f e.2) :: s, some (f e.2))
    else
      let r := entityUpdate s pid f
      (e :: r.1, r.2)

/-- Payload of a socket emission performed by the hook. -/
inductive Payload
  | likeUpdate (photoId : String) (likeCount : Option Nat) (socketId : String)
  | viewUpdate (photoId : String) (viewCount : Option Nat)
  | errorMsg (message : String)
  deriving DecidableEq

/-- Emission target: `socket.emit` versus `io.to(room).emit`. -/
inductive Target
  | toSocket (sid : String)
  | toRoom (room : String)
  deriving DecidableEq

/-- One socket emission: target, event name, payload. -/
structure Msg where
  target : Target
  event : String
  payload : Payload
  deriving DecidableEq

/-- The `photo:like` handler.  `readFails` / `writeFails` say whether the
`findOne` / `update` store call throws; a throw lands in the `catch`
block, which emits `error` to the requesting socket.  A missing photo
emits `error` with `Photo not found`.  Otherwise the handler stores
`(photo.likeCount || 0) + 1` and broadcasts `photo:like-update` with the
updated record's `likeCount` to room `photo:<photoId>`. -/
def handleLike (store : Store) (sid pid : String) (readFails writeFails : Bool) :
    Store × List Msg :=
  if readFails then
    (store, [⟨Target.toSocket sid, "error", Payload.errorMsg "Failed to process like"⟩])
  else
    match findOne store pid with
    | none => (store, [⟨Target.toSocket sid, "error", Payload.errorMsg "Photo not found"⟩])
    | some photo =>
      if writeFails then
        (store, [⟨Target.toSocket sid, "error", Payload.errorMsg "Failed to process like"⟩])
      else
        let r := entityUpdate store pid
          (fun p => { p with likeCount := some (photo.likeCount.getD 0 + 1) })
        match r.2 with
        | some updatedPhoto =>
          (r.1, [⟨Target.toRoom ("photo:" ++ pid), "photo:like-update",
                  Payload.likeUpdate pid updatedPhoto.likeCount sid⟩])
        | none =>
          (store, [⟨Target.toSocket sid, "error", Payload.errorMsg "Failed to process like"⟩])

/-- The `photo:view` handler.  Identical read-increment-write-broadcast
shape, but every failure path is silent: the `catch` block only logs,
and a missing photo just returns — no emission in either case. -/
def handleView (store : Store) (sid pid : String) (readFails writeFails : Bool) :
    Store × List Msg :=
  if readFails then (store, [])
  else
    match findOne store pid with
    | none => (store, [])
    | some currentPhoto =>
      if writeFails then (store, [])
      else
        let r := entityUpdate store pid
          (fun p => { p with viewCount := some (currentPhoto.viewCount.getD 0 + 1) })
        match r.2 with
        | some photo =>
          (r.1, [⟨Target.toRoom ("photo:" ++ pid), "photo:view-update",
                  Payload.viewUpdate pid photo.viewCount⟩])
        | none => (store, [])

/-- Socket.IO server state: the backing store, the connected socket ids,
and the room memberships (`socket.join` adds a `(socketId, room)` pair;
disconnection removes a socket from every room). -/
structure ServerState where
  store : Store
  connected : List String
  rooms : List (String × String)
  deriving DecidableEq

/-- External events the connection handler reacts to.  The Booleans on
`like` / `view` say whether the store read / write throws during that
handling. -/
inductive Event
  | connect (sid : String)
  | joinPhoto (sid pid : String)
  | like (sid pid : String) (readFails writeFails : Bool)
  | view (sid pid : String) (readFails writeFails : Bool)
  | disconnect (sid : String)
  deriving DecidableEq

/-- The `join-photo` handler: `socket.join('photo:' + photoId)`. -/
def handleJoinPhoto (st : ServerState) (sid pid : String) : ServerState :=
  { st with rooms := (sid, "photo:" ++ pid) :: st.rooms }

/-- One step of the server: dispatch an event to its handler, returning
the new state and the emissions the handling produced. -/
def step (st : ServerState) : Event → ServerState × List Msg
  | Event.connect sid => ({ st with connected := sid :: st.connected }, [])
  | Event.joinPhoto sid pid => (handleJoinPhoto st sid pid, [])
  | Event.like sid pid rf wf =>
    let r := handleLike st.store sid pid rf wf
    ({ st with store := r.1 }, r.2)
  | Event.view sid pid rf wf =>
    let r := handleView st.store sid pid rf wf
    ({ st with store := r.1 }, r.2)
  | Event.disconnect sid =>
    ({ st with connected := st.connected.filter (fun c => c ≠ sid),
               rooms := st.rooms.filter (fun e => e.1 ≠ sid) }, [])

/-- Sockets currently in a room. -/
def roomMembers (st : ServerState) (room : String) : List String :=
  (st.rooms.filter (fun e => e.2 = room)).map Prod.fst

/-- Which sockets a single emission reaches: a direct `socket.emit`
reaches that socket; `io.to(room).emit` reaches the room's members. -/
def receivers (st : ServerState) (m : Msg) : List String :=
  match m.target with
  | Target.toSocket sid => [sid]
  | Target.toRoom room => roomMembers st room

/-- The `(receiver, message)` pairs delivered while handling one event
(room membership does not change during a `like`/`view` handling, so
receivers are evaluated in the pre-state). -/
def stepReceptions (st : ServerState) (e : Event) : List (String × Msg) :=
  ((step st e).2.map (fun m => (receivers st m).map (fun r => (r, m)))).flatten

/-- Run the server over a list of events. -/
def run : ServerState → List Event → ServerState
  | st, [] => st
  | st, e :: es => run (step st e).1 es

/-- The state right after `bootstrap`: no socket is connected and no
room has a member. -/
def initState (store : Store) : ServerState := ⟨store, [], []⟩

/-- Does a message carry a `photo:like-update` or `photo:view-update`
for photo `pid`? -/
def updateFor (m : Msg) (pid : String) : Bool :=
  match m.payload with
  | Payload.likeUpdate p _ _ => p = pid
  | Payload.viewUpdate p _ => p = pid
  | Payload.errorMsg _ => false

/-- Successive `photo:like` handlings for the same photo, one per
requesting socket in `sids` (duplicates allowed), none of whose store
calls fail. -/
def iterLike (pid : String) : List String → Store → Store
  | [], store => store
  | sid :: sids, store => iterLike pid sids (handleLike store sid pid false false).1

/-! ## Frontend: gallery store, real-time composable, Strapi service -/

/-- A frontend `Photo` (`src/frontend/src/types/gallery.ts`), restricted
to the fields the gallery store reads: optional fields are `Option`. -/
structure Photo where
  documentId : String
  title : String
  description : Option String
  category : String
  featured : Bool
  tags : Option (List String)
  deriving DecidableEq

/-- `FilterOptions`: every field optional (`undefined` is `none`). -/
structure FilterOptions where
  category : Option String := none
  tags : Option (List String) := none
  featured : Option Bool := none
  search : Option String := none
  deriving DecidableEq

/-- JS `String.prototype.toLowerCase()` (characterwise). -/
def strToLower (s : String) : String := ⟨s.data.map Char.toLower⟩

/-- JS `String.prototype.includes(sub)`: `sub` occurs contiguously. -/
def strIncludes (s sub : String) : Bool := decide (sub.data <:+: s.data)

/-- The `filteredPhotos` computed getter of the gallery store: four
successive filters, each applied only when its filter option is active
(JS truthiness: an empty `category` string, an empty `tags` array and an
empty `search` string are falsy and skip their filter). -/
def filteredPhotos (photos : List Photo) (activeFilters : FilterOptions) : List Photo :=
  let result := photos
  let result := match activeFilters.category with
    | some c =>
      if c ≠ "" then result.filter (fun photo => photo.category = c)
      else result
    | none => result
  let result := match activeFilters.featured with
    | some f => result.filter (fun photo => photo.featured = f)
    | none => result
  let result := match activeFilters.tags with
    | some ts =>
      if ts.length ≠ 0 then
        result.filter (fun photo =>
          (photo.tags.map (fun ptags => ptags.any (fun tag => ts.contains tag))).getD false)
      else result
    | none => result
  let result := match activeFilters.search with
    | some s =>
      if s ≠ "" then
        let searchTerm := strToLower s
        result.filter (fun photo =>
          strIncludes (strToLower photo.title) searchTerm ||
          (photo.description.map
            (fun d => strIncludes (strToLower d) searchTerm)).getD false)
      else result
    | none => result
  result

/-- `clearFilters`: `activeFilters.value = {}`. -/
def clearFilters : FilterOptions := {}

/-- Lightbox-navigation state of the gallery store. -/
structure GalleryNav where
  selectedIndex : Nat
  selectedPhoto : Option Photo
  isLightboxOpen : Bool
  deriving DecidableEq

/-- `selectPhoto(photo, index)`: sets the selection and opens the
lightbox (`photo` is `none` when the JS argument is `undefined`). -/
def selectPhoto (photo : Option Photo) (index : Nat) : GalleryNav :=
  { selectedIndex := index, selectedPhoto := photo, isLightboxOpen := true }

/-- `nextPhoto()`: select index `(current + 1) % filteredPhotos.length`. -/
def nextPhoto (filtered : List Photo) (st : GalleryNav) : GalleryNav :=
  let currentIndex := st.selectedIndex
  let nextIndex := (currentIndex + 1) % filtered.length
  selectPhoto (filtered.get? nextIndex) nextIndex

/-- `previousPhoto()`: select `current - 1`, wrapping from `0` to
`filteredPhotos.length - 1`. -/
def previousPhoto (filtered : List Photo) (st : GalleryNav) : GalleryNav :=
  let currentIndex := st.selectedIndex
  let prevIndex := if currentIndex > 0 then currentIndex - 1 else filtered.length - 1
  selectPhoto (filtered.get? prevIndex) prevIndex

/-- One entry of the composable's `recentActivity` feed; `data` is kept
abstract as a string, `timestamp` (`new Date()`) is supplied by the
caller as a number. -/
structure Activity where
  type : String
  data : String
  timestamp : Nat
  deriving DecidableEq

/-- `addActivity`: `unshift` the new entry, then keep only the first 50
entries when the list has grown beyond 50. -/
def addActivity (type data : String) (now : Nat) (recentActivity : List Activity) :
    List Activity :=
  let grown := ⟨type, data, now⟩ :: recentActivity
  if grown.length > 50 then grown.take 50 else grown

/-- Body of the `POST /api/likes` response as `likePhoto` consumes it:
`malformed` covers a body on which `json()` or the `data.data.photo`
access throws; `noPhoto` is a well-formed body whose `photo` field is
absent; `withPhoto lc` has a `photo` object whose `likeCount` is `lc`
(`none` when the field is absent — the schema bounds stored counts to
non-negative integers). -/
inductive LikeBody
  | malformed
  | noPhoto
  | withPhoto (likeCount : Option Nat)
  deriving DecidableEq

/-- Outcome of the `fetch` call inside `likePhoto`. -/
inductive FetchOutcome
  | networkError
  | response (ok : Bool) (body : LikeBody)
  deriving DecidableEq

/-- Result object of `strapiService.likePhoto`. -/
structure LikeResult where
  success : Bool
  likeCount : Nat
  deriving DecidableEq

/-- `strapiService.likePhoto(photoId)` as a function of the fetch
outcome: a non-ok response throws, any throw is caught and mapped to
`{ success: false, likeCount: 0 }`; otherwise the result is
`{ success: true, likeCount: data.data.photo?.likeCount || 0 }`. -/
def likePhoto (photoId : String) (outcome : FetchOutcome) : LikeResult :=
  match outcome with
  | FetchOutcome.networkError => ⟨false, 0⟩
  | FetchOutcome.response ok body =>
    if ¬ ok then ⟨false, 0⟩
    else
      match body with
      | LikeBody.malformed => ⟨false, 0⟩
      | LikeBody.noPhoto => ⟨true, 0⟩
      | LikeBody.withPhoto lc => ⟨true, lc.getD 0⟩

/-- Did the fetch fail (network error, non-ok status, or a body that
throws during decoding)? -/
def fetchFailed (outcome : FetchOutcome) : Bool :=
  match outcome with
  | FetchOutcome.networkError => true
  | FetchOutcome.response ok body => ¬ ok || body = LikeBody.malformed

/-- A concrete store holding one photo `"p"` with no likes or views. -/
def cexStore : Store := [("p", ⟨some 0, some 0⟩)]

/-- A concrete server state: sockets `"a"` and `"b"` connected, only
`"a"` has joined room `photo:p`. -/
def cexState : ServerState := ⟨cexStore, ["a", "b"], [("a", "photo:p")]⟩

/-- Concrete frontend photos (after the mock photos of the store tests). -/
def mountainPhoto : Photo :=
  ⟨"1", "Mountain View", none, "landscape", true, none⟩

/-- Second concrete frontend photo. -/
def cityPhoto : Photo :=
  ⟨"2", "City Lights", none, "urban", false, none⟩

/-! ## Store lemmas -/

/-- The record returned by `entityUpdate` is the patched old record. -/
theorem entityUpdate_snd (s : Store) (pid : String) (f : PhotoRec → PhotoRec) :
    (entityUpdate s pid f).2 = (findOne s pid).map f := by
  induction s with
  | nil => rfl
  | cons e s ih =>
    simp only [entityUpdate, findOne]
    split
    · rfl
    · exact ih

/-- Reading back the updated id after `entityUpdate` yields the patched
record. -/
theorem findOne_entityUpdate (s : Store) (pid : String) (f : PhotoRec → PhotoRec) :
    findOne (entityUpdate s pid f).1 pid = (findOne s pid).map f := by
  induction s with
  | nil => rfl
  | cons e s ih =>
    simp only [entityUpdate, findOne]
    split
    · rename_i he
      simp only [findOne, if_pos he]
      rfl
    · rename_i he
      simp only [findOne, if_neg he]
      exact ih

/-- On an existing photo with no store failure, `photo:like` handling
reduces to one store update plus one room broadcast of the new count. -/
theorem handleLike_found (store : Store) (sid pid : String) (photo : PhotoRec)
    (h : findOne store pid = some photo) :
    handleLike store sid pid false false =
      ((entityUpdate store pid
          (fun p => { p with likeCount := some (photo.likeCount.getD 0 + 1) })).1,
       [⟨Target.toRoom ("photo:" ++ pid), "photo:like-update",
         Payload.likeUpdate pid (some (photo.likeCount.getD 0 + 1)) sid⟩]) := by
  have hsnd := entityUpdate_snd store pid
    (fun p => { p with likeCount := some (photo.likeCount.getD 0 + 1) })
  rw [h] at hsnd
  simp [handleLike, h, hsnd]

/-- On an existing photo with no store failure, `photo:view` handling
reduces to one store update plus one room broadcast of the new count. -/
theorem handleView_found (store : Store) (sid pid : String) (photo : PhotoRec)
    (h : findOne store pid = some photo) :
    handleView store sid pid false false =
      ((entityUpdate store pid
          (fun p => { p with viewCount := some (photo.viewCount.getD 0 + 1) })).1,
       [⟨Target.toRoom ("photo:" ++ pid), "photo:view-update",
         Payload.viewUpdate pid (some (photo.viewCount.getD 0 + 1))⟩]) := by
  have hsnd := entityUpdate_snd store pid
    (fun p => { p with viewCount := some (photo.viewCount.getD 0 + 1) })
  rw [h] at hsnd
  simp [handleView, h, hsnd]

/-- C1: for every `photo:like` event handled for an existing photo, the
`likeCount` carried by the `photo:like-update` broadcast equals the
`likeCount` stored for that photo by the update performed in the same
handling. -/
theorem like_broadcast_matches_store (store : Store) (sid pid : String)
    (photo : PhotoRec) (h : findOne store pid = some photo) :
    ∃ n p,
      (handleLike store sid pid false false).2 =
        [⟨Target.toRoom ("photo:" ++ pid), "photo:like-update",
          Payload.likeUpdate pid (some n) sid⟩] ∧
      findOne (handleLike store sid pid false false).1 pid = some p ∧
      p.likeCount = some n := by
  refine ⟨photo.likeCount.getD 0 + 1,
    { photo with likeCount := some (photo.likeCount.getD 0 + 1) }, ?_, ?_, rfl⟩
  · rw [handleLike_found store sid pid photo h]
  · rw [handleLike_found store sid pid photo h]
    rw [findOne_entityUpdate, h]
    rfl

/-- Witness for C1 on a concrete store. -/
theorem like_broadcast_matches_store_witness :
    ∃ n p,
      (handleLike cexStore "a" "p" false false).2 =
        [⟨Target.toRoom ("photo:" ++ "p"), "photo:like-update",
          Payload.likeUpdate "p" (some n) "a"⟩] ∧
      findOne (handleLike cexStore "a" "p" false false).1 "p" = some p ∧
      p.likeCount = some n :=
  like_broadcast_matches_store cexStore "a" "p" ⟨some 0, some 0⟩ (by decide)

/-- C2: a `photo:like` event on an existing photo with stored likeCount
`c` (missing counting as 0) stores `c + 1` and emits `photo:like-update`
carrying the new count, targeted at room `photo:<photoId>`; the
analogous property holds for `photo:view` and `viewCount`. -/
theorem like_view_increment_and_broadcast (store : Store) (sid pid : String)
    (photo : PhotoRec) (h : findOne store pid = some photo) :
    (findOne (handleLike store sid pid false false).1 pid =
        some { photo with likeCount := some (photo.likeCount.getD 0 + 1) } ∧
      (handleLike store sid pid false false).2 =
        [⟨Target.toRoom ("photo:" ++ pid), "photo:like-update",
          Payload.likeUpdate pid (some (photo.likeCount.getD 0 + 1)) sid⟩]) ∧
    (findOne (handleView store sid pid false false).1 pid =
        some { photo with viewCount := some (photo.viewCount.getD 0 + 1) } ∧
      (handleView store sid pid false false).2 =
        [⟨Target.toRoom ("photo:" ++ pid), "photo:view-update",
          Payload.viewUpdate pid (some (photo.viewCount.getD 0 + 1))⟩]) := by
  refine ⟨⟨?_, ?_⟩, ?_, ?_⟩
  · rw [handleLike_found store sid pid photo h, findOne_entityUpdate, h]; rfl
  · rw [handleLike_found store sid pid photo h]
  · rw [handleView_found store sid pid photo h, findOne_entityUpdate, h]; rfl
  · rw [handleView_found store sid pid photo h]

/-- Witness for C2 on a concrete store. -/
theorem like_view_increment_and_broadcast_witness :
    (findOne (handleLike cexStore "a" "p" false false).1 "p" =
        some { likeCount := some 1, viewCount := some 0 } ∧
      (handleLike cexStore "a" "p" false false).2 =
        [⟨Target.toRoom ("photo:" ++ "p"), "photo:like-update",
          Payload.likeUpdate "p" (some 1) "a"⟩]) ∧
    (findOne (handleView cexStore "a" "p" false false).1 "p" =
        some { likeCount := some 0, viewCount := some 1 } ∧
      (handleView cexStore "a" "p" false false).2 =
        [⟨Target.toRoom ("photo:" ++ "p"), "photo:view-update",
          Payload.viewUpdate "p" (some 1)⟩]) :=
  like_view_increment_and_broadcast cexStore "a" "p" ⟨some 0, some 0⟩ (by decide)

/-- C6 (amendable part of the claim holds as stated): `n` successive
`photo:like` handlings for an existing photo with stored likeCount `c`
leave the stored likeCount at `c + n` — no idempotency, duplicates all
count. -/
theorem successive_likes_add (pid : String) (sids : List String) :
    ∀ (store : Store) (photo : PhotoRec) (c : Nat),
      findOne store pid = some photo → photo.likeCount = some c →
      ∃ p, findOne (iterLike pid sids store) pid = some p ∧
        p.likeCount = some (c + sids.length) := by
  induction sids with
  | nil =>
    intro store photo c h hc
    exact ⟨photo, h, by rw [hc, List.length_nil, Nat.add_zero]⟩
  | cons sid sids ih =>
    intro store photo c h hc
    have hstep : findOne (handleLike store sid pid false false).1 pid =
        some { photo with likeCount := some (c + 1) } := by
      rw [handleLike_found store sid pid photo h, findOne_entityUpdate, h, hc]
      rfl
    obtain ⟨p, hp1, hp2⟩ :=
      ih (handleLike store sid pid false false).1
        { photo with likeCount := some (c + 1) } (c + 1) hstep rfl
    refine ⟨p, hp1, ?_⟩
    rw [hp2, List.length_cons]
    congr 1
    omega

/-- Witness for C6: three likes, two of them duplicates from the same
client, on a photo with likeCount 0 give 3. -/
theorem successive_likes_add_witness :
    ∃ p, findOne (iterLike "p" ["a", "b", "a"] cexStore) "p" = some p ∧
      p.likeCount = some (0 + (["a", "b", "a"] : List String).length) :=
  successive_likes_add "p" ["a", "b", "a"] cexStore ⟨some 0, some 0⟩ 0 (by decide) rfl

/-- Counterexample to C3 as stated: a `photo:view` event whose store
read (first conjunct) or store write (second conjunct) fails emits
nothing at all — in particular the requesting socket receives no error
event. -/
theorem view_failure_emits_nothing_cex :
    (handleView cexStore "a" "p" true false).2 = [] ∧
    (handleView cexStore "a" "p" false true).2 = [] := by decide

/-- C3 amended: when a store call of a `photo:like` handling fails, the
requesting socket receives exactly one `error` event; a failing
`photo:view` handling emits nothing (the failure is only logged). -/
theorem store_failure_error_reporting (store : Store) (sid pid : String)
    (rf wf : Bool) (h : rf = true ∨ wf = true) :
    (∃ emsg, (handleLike store sid pid rf wf).2 =
      [⟨Target.toSocket sid, "error", Payload.errorMsg emsg⟩]) ∧
    (handleView store sid pid rf wf).2 = [] := by
  constructor
  · cases rf with
    | true => exact ⟨"Failed to process like", rfl⟩
    | false =>
      have hwf : wf = true := by tauto
      subst hwf
      cases hf : findOne store pid with
      | none => exact ⟨"Photo not found", by simp [handleLike, hf]⟩
      | some photo => exact ⟨"Failed to process like", by simp [handleLike, hf]⟩
  · cases rf with
    | true => rfl
    | false =>
      have hwf : wf = true := by tauto
      subst hwf
      cases hf : findOne store pid with
      | none => simp [handleView, hf]
      | some photo => simp [handleView, hf]

/-- Witness for the amended C3 at a failing read. -/
theorem store_failure_error_reporting_witness :
    (∃ emsg, (handleLike cexStore "a" "p" true false).2 =
      [⟨Target.toSocket "a", "error", Payload.errorMsg emsg⟩]) ∧
    (handleView cexStore "a" "p" true false).2 = [] :=
  store_failure_error_reporting cexStore "a" "p" true false (Or.inl rfl)

/-! ## Room-scoping lemmas -/

/-- Room names `photo:<pid>` determine the photo id. -/
theorem photoRoom_inj {a b : String} (h : "photo:" ++ a = "photo:" ++ b) : a = b := by
  have h2 : ("photo:" ++ a).data = ("photo:" ++ b).data := by rw [h]
  rw [String.data_append, String.data_append] at h2
  exact String.ext (List.append_cancel_left h2)

/-- Any room membership present after a run either was present at the
start or stems from a `join-photo` event in the processed trace. -/
theorem mem_rooms_run (es : List Event) :
    ∀ (st : ServerState) (sid room : String),
      (sid, room) ∈ (run st es).rooms →
      (sid, room) ∈ st.rooms ∨
        ∃ pid, room = "photo:" ++ pid ∧ Event.joinPhoto sid pid ∈ es := by
  induction es with
  | nil => exact fun st sid room h => Or.inl h
  | cons e es ih =>
    intro st sid room h
    rcases ih (step st e).1 sid room h with h1 | ⟨pid, hr, hm⟩
    · cases e with
      | connect s => exact Or.inl h1
      | joinPhoto s p =>
        rcases List.mem_cons.mp h1 with heq | hmem
        · rw [Prod.mk.injEq] at heq
          obtain ⟨rfl, rfl⟩ := heq
          exact Or.inr ⟨p, rfl, List.mem_cons_self _ _⟩
        · exact Or.inl hmem
      | like s p rf wf => exact Or.inl h1
      | view s p rf wf => exact Or.inl h1
      | disconnect s => exact Or.inl (List.mem_of_mem_filter h1)
    · exact Or.inr ⟨pid, hr, List.mem_cons_of_mem e hm⟩

/-- Every emission of the `photo:like` handler is either an `error` to
the requesting socket or the `photo:like-update` broadcast to the
photo's room. -/
theorem handleLike_msg_shape (store : Store) (sid pid : String) (rf wf : Bool)
    (m : Msg) (hm : m ∈ (handleLike store sid pid rf wf).2) :
    (∃ emsg, m = ⟨Target.toSocket sid, "error", Payload.errorMsg emsg⟩) ∨
    (∃ lc, m = ⟨Target.toRoom ("photo:" ++ pid), "photo:like-update",
                 Payload.likeUpdate pid lc sid⟩) := by
  unfold handleLike at hm
  split at hm
  · simp at hm; exact Or.inl ⟨_, hm⟩
  · split at hm
    · simp at hm; exact Or.inl ⟨_, hm⟩
    · rename_i photo heq
      split at hm
      · simp at hm; exact Or.inl ⟨_, hm⟩
      · simp only [entityUpdate_snd, heq] at hm
        simp at hm
        exact Or.inr ⟨_, hm⟩

/-- Every emission of the `photo:view` handler is the
`photo:view-update` broadcast to the photo's room. -/
theorem handleView_msg_shape (store : Store) (sid pid : String) (rf wf : Bool)
    (m : Msg) (hm : m ∈ (handleView store sid pid rf wf).2) :
    ∃ vc, m = ⟨Target.toRoom ("photo:" ++ pid), "photo:view-update",
               Payload.viewUpdate pid vc⟩ := by
  unfold handleView at hm
  split at hm
  · simp at hm
  · split at hm
    · simp at hm
    · rename_i photo heq
      split at hm
      · simp at hm
      · simp only [entityUpdate_snd, heq] at hm
        simp at hm
        exact ⟨_, hm⟩

/-- A message emitted during a step that carries a like or view update
for photo `P` is targeted at room `photo:<P>`. -/
theorem step_update_msg_target (st : ServerState) (e : Event) (m : Msg) (P : String)
    (hm : m ∈ (step st e).2) (hu : updateFor m P = true) :
    m.target = Target.toRoom ("photo:" ++ P) := by
  cases e with
  | connect s => simp [step] at hm
  | joinPhoto s p => simp [step] at hm
  | disconnect s => simp [step] at hm
  | like s p rf wf =>
    rcases handleLike_msg_shape st.store s p rf wf m hm with ⟨emsg, rfl⟩ | ⟨lc, rfl⟩
    · simp [updateFor] at hu
    · simp only [updateFor] at hu
      have : p = P := by simpa using hu
      subst this
      rfl
  | view s p rf wf =>
    obtain ⟨vc, rfl⟩ := handleView_msg_shape st.store s p rf wf m hm
    simp only [updateFor] at hu
    have : p = P := by simpa using hu
    subst this
    rfl

/-- A socket reached by a room-targeted emission is a member of that
room. -/
theorem mem_receivers_toRoom (st : ServerState) (m : Msg) (room r : String)
    (ht : m.target = Target.toRoom room) (hr : r ∈ receivers st m) :
    (r, room) ∈ st.rooms := by
  obtain ⟨t, ev, pl⟩ := m
  simp only at ht
  subst ht
  simp only [receivers, roomMembers, List.mem_map, List.mem_filter] at hr
  obtain ⟨⟨a, b⟩, ⟨hmem, hb⟩, ha⟩ := hr
  simp only [decide_eq_true_eq] at hb
  subst hb
  subst ha
  exact hmem

/-- C4: broadcasts are scoped by room — if, in a server run started from
the initial state, handling one more event delivers a
`photo:like-update` or `photo:view-update` for photo `P` to socket
`sid`, then `sid` previously sent `join-photo` with `P` (a `joinPhoto`
event of `sid` for `P` occurs in the already-processed trace). -/
theorem update_delivery_requires_join (store : Store) (pre : List Event)
    (e : Event) (sid P : String) (m : Msg)
    (hrec : (sid, m) ∈ stepReceptions (run (initState store) pre) e)
    (hu : updateFor m P = true) :
    Event.joinPhoto sid P ∈ pre := by
  unfold stepReceptions at hrec
  rw [List.mem_flatten] at hrec
  obtain ⟨l, hl, hpair⟩ := hrec
  rw [List.mem_map] at hl
  obtain ⟨msg, hmsg, rfl⟩ := hl
  rw [List.mem_map] at hpair
  obtain ⟨r, hr, hrm⟩ := hpair
  rw [Prod.mk.injEq] at hrm
  obtain ⟨rfl, rfl⟩ := hrm
  have htar := step_update_msg_target (run (initState store) pre) e msg P hmsg hu
  have hroom := mem_receivers_toRoom (run (initState store) pre) msg
    ("photo:" ++ P) r htar hr
  rcases mem_rooms_run pre (initState store) r ("photo:" ++ P) hroom with h0 | h1
  · simp [initState] at h0
  · obtain ⟨pid, heq, hjoin⟩ := h1
    rwa [← photoRoom_inj heq] at hjoin

/-- Witness for C4: a concrete trace where the reception happened, so a
join must be (and is) in the prefix. -/
theorem update_delivery_requires_join_witness :
    Event.joinPhoto "a" "p" ∈
      [Event.connect "a", Event.joinPhoto "a" "p"] :=
  update_delivery_requires_join cexStore
    [Event.connect "a", Event.joinPhoto "a" "p"]
    (Event.like "a" "p" false false) "a" "p"
    ⟨Target.toRoom ("photo:" ++ "p"), "photo:like-update",
      Payload.likeUpdate "p" (some 1) "a"⟩
    (by decide) (by decide)

/-- Counterexample to C5 as stated: socket `"b"` is connected while
`"a"` likes photo `"p"`; the like counter is incremented and broadcast,
yet `"b"` (not a member of room `photo:p`) receives nothing. -/
theorem connected_client_misses_update_cex :
    "b" ∈ cexState.connected ∧
    findOne (step cexState (Event.like "a" "p" false false)).1.store "p" =
      some ⟨some 1, some 0⟩ ∧
    "b" ∉ (stepReceptions cexState (Event.like "a" "p" false false)).map Prod.fst := by
  decide

/-- C5 amended: whenever a like or view counter is incremented, the new
value is delivered to every socket that joined the photo's room
`photo:<photoId>` (not to every connected client). -/
theorem room_members_receive_updates (st : ServerState) (sid pid : String)
    (photo : PhotoRec) (h : findOne st.store pid = some photo) (r : String)
    (hr : r ∈ roomMembers st ("photo:" ++ pid)) :
    (∃ m, (r, m) ∈ stepReceptions st (Event.like sid pid false false) ∧
      updateFor m pid = true) ∧
    (∃ m, (r, m) ∈ stepReceptions st (Event.view sid pid false false) ∧
      updateFor m pid = true) := by
  constructor
  · refine ⟨⟨Target.toRoom ("photo:" ++ pid), "photo:like-update",
      Payload.likeUpdate pid (some (photo.likeCount.getD 0 + 1)) sid⟩, ?_, by simp [updateFor]⟩
    have h2 : (step st (Event.like sid pid false false)).2 =
        [⟨Target.toRoom ("photo:" ++ pid), "photo:like-update",
          Payload.likeUpdate pid (some (photo.likeCount.getD 0 + 1)) sid⟩] := by
      show (handleLike st.store sid pid false false).2 = _
      rw [handleLike_found st.store sid pid photo h]
    unfold stepReceptions
    rw [h2]
    simp only [List.map_cons, List.map_nil, List.flatten_cons, List.flatten_nil,
      List.append_nil, receivers]
    exact List.mem_map_of_mem _ hr
  · refine ⟨⟨Target.toRoom ("photo:" ++ pid), "photo:view-update",
      Payload.viewUpdate pid (some (photo.viewCount.getD 0 + 1))⟩, ?_, by simp [updateFor]⟩
    have h2 : (step st (Event.view sid pid false false)).2 =
        [⟨Target.toRoom ("photo:" ++ pid), "photo:view-update",
          Payload.viewUpdate pid (some (photo.viewCount.getD 0 + 1))⟩] := by
      show (handleView st.store sid pid false false).2 = _
      rw [handleView_found st.store sid pid photo h]
    unfold stepReceptions
    rw [h2]
    simp only [List.map_cons, List.map_nil, List.flatten_cons, List.flatten_nil,
      List.append_nil, receivers]
    exact List.mem_map_of_mem _ hr

/-- Witness for the amended C5: the room member `"a"` of `cexState`
receives both updates. -/
theorem room_members_receive_updates_witness :
    (∃ m, ("a", m) ∈ stepReceptions cexState (Event.like "s" "p" false false) ∧
      updateFor m "p" = true) ∧
    (∃ m, ("a", m) ∈ stepReceptions cexState (Event.view "s" "p" false false) ∧
      updateFor m "p" = true) :=
  room_members_receive_updates cexState "s" "p" ⟨some 0, some 0⟩ (by decide) "a" (by decide)

/-! ## Frontend claims -/

/-- C7: with only a category filter `c` active (a category filter is
active exactly when `c` is non-empty — the empty string is JS-falsy and
means "All Categories"), `filteredPhotos` is exactly the sublist of
photos whose category equals `c` (a `filter`, hence in the order of the
underlying list); with no active filters it is the full photo list. -/
theorem category_filter_spec (photos : List Photo) (c : String) (hc : c ≠ "") :
    filteredPhotos photos { category := some c } =
      photos.filter (fun photo => photo.category = c) ∧
    filteredPhotos photos clearFilters = photos := by
  refine ⟨?_, rfl⟩
  unfold filteredPhotos
  dsimp only
  rw [if_pos hc]

/-- Witness for C7: the concrete category `"landscape"` on the two-photo
list keeps exactly the landscape photo. -/
theorem category_filter_spec_witness :
    filteredPhotos [mountainPhoto, cityPhoto] { category := some "landscape" } =
      [mountainPhoto, cityPhoto].filter (fun photo => photo.category = "landscape") ∧
    filteredPhotos [mountainPhoto, cityPhoto] clearFilters =
      [mountainPhoto, cityPhoto] :=
  category_filter_spec [mountainPhoto, cityPhoto] "landscape" (by decide)

/-- C8: after every `addActivity` call the activity feed has at most 50
entries and the new entry is first. -/
theorem recent_activity_bounded (type data : String) (now : Nat)
    (ra : List Activity) :
    (addActivity type data now ra).length ≤ 50 ∧
    (addActivity type data now ra).head? = some ⟨type, data, now⟩ := by
  constructor
  · unfold addActivity
    dsimp only
    split
    · rw [List.length_take]
      exact Nat.min_le_left _ _
    · rename_i hlen
      omega
  · unfold addActivity
    dsimp only
    split
    · rfl
    · rfl

/-- C9: on a non-empty filtered list with the selected index in range,
`nextPhoto` then `previousPhoto` (and `previousPhoto` then `nextPhoto`)
restore the original `selectedIndex` and select the photo at that
index. -/
theorem lightbox_nav_round_trip (filtered : List Photo) (st : GalleryNav)
    (hne : filtered ≠ []) (hidx : st.selectedIndex < filtered.length) :
    (previousPhoto filtered (nextPhoto filtered st)).selectedIndex =
      st.selectedIndex ∧
    (nextPhoto filtered (previousPhoto filtered st)).selectedIndex =
      st.selectedIndex ∧
    (previousPhoto filtered (nextPhoto filtered st)).selectedPhoto =
      filtered.get? st.selectedIndex ∧
    (nextPhoto filtered (previousPhoto filtered st)).selectedPhoto =
      filtered.get? st.selectedIndex := by
  have hlen : 0 < filtered.length := List.length_pos.mpr hne
  have hpn : (previousPhoto filtered (nextPhoto filtered st)).selectedIndex =
      st.selectedIndex := by
    simp only [previousPhoto, nextPhoto, selectPhoto]
    by_cases hsucc : st.selectedIndex + 1 < filtered.length
    · rw [Nat.mod_eq_of_lt hsucc]
      simp
    · have heq : st.selectedIndex + 1 = filtered.length := by omega
      rw [heq, Nat.mod_self]
      simp
      omega
  have hnp : (nextPhoto filtered (previousPhoto filtered st)).selectedIndex =
      st.selectedIndex := by
    simp only [previousPhoto, nextPhoto, selectPhoto]
    by_cases hpos : st.selectedIndex > 0
    · rw [if_pos hpos]
      have : st.selectedIndex - 1 + 1 = st.selectedIndex := by omega
      rw [this, Nat.mod_eq_of_lt hidx]
    · rw [if_neg hpos]
      have : filtered.length - 1 + 1 = filtered.length := by omega
      rw [this, Nat.mod_self]
      omega
  refine ⟨hpn, hnp, ?_, ?_⟩
  · rw [show (previousPhoto filtered (nextPhoto filtered st)).selectedPhoto =
        filtered.get?
          ((previousPhoto filtered (nextPhoto filtered st)).selectedIndex) from rfl,
      hpn]
  · rw [show (nextPhoto filtered (previousPhoto filtered st)).selectedPhoto =
        filtered.get?
          ((nextPhoto filtered (previousPhoto filtered st)).selectedIndex) from rfl,
      hnp]

/-- Witness for C9 on a concrete two-photo list with index 1. -/
theorem lightbox_nav_round_trip_witness :
    (previousPhoto [mountainPhoto, cityPhoto]
        (nextPhoto [mountainPhoto, cityPhoto] ⟨1, none, false⟩)).selectedIndex = 1 ∧
    (nextPhoto [mountainPhoto, cityPhoto]
        (previousPhoto [mountainPhoto, cityPhoto] ⟨1, none, false⟩)).selectedIndex = 1 ∧
    (previousPhoto [mountainPhoto, cityPhoto]
        (nextPhoto [mountainPhoto, cityPhoto] ⟨1, none, false⟩)).selectedPhoto =
      [mountainPhoto, cityPhoto].get? 1 ∧
    (nextPhoto [mountainPhoto, cityPhoto]
        (previousPhoto [mountainPhoto, cityPhoto] ⟨1, none, false⟩)).selectedPhoto =
      [mountainPhoto, cityPhoto].get? 1 :=
  lightbox_nav_round_trip [mountainPhoto, cityPhoto] ⟨1, none, false⟩
    (by decide) (by decide)

/-- C10: `likePhoto` is a total function of the fetch outcome: any
failure (network error, non-ok status, or a body that throws during
decoding) yields `{ success := false, likeCount := 0 }`, and any
success yields `{ success := true, likeCount := n }` with `0 ≤ n`. -/
theorem like_photo_total_result (pid : String) (outcome : FetchOutcome) :
    (fetchFailed outcome = true → likePhoto pid outcome = ⟨false, 0⟩) ∧
    (fetchFailed outcome = false →
      (likePhoto pid outcome).success = true ∧
      0 ≤ (likePhoto pid outcome).likeCount) := by
  cases outcome with
  | networkError =>
    exact ⟨fun _ => rfl, fun h => by simp [fetchFailed] at h⟩
  | response ok body =>
    cases ok <;> cases body <;> simp [likePhoto, fetchFailed]

/-- Witness for C10: a network error maps to the failure result; an ok
response with a stored count maps to a success result. -/
theorem like_photo_total_result_witness :
    likePhoto "p" FetchOutcome.networkError = ⟨false, 0⟩ ∧
    (likePhoto "p" (FetchOutcome.response true
       (LikeBody.withPhoto (some 7)))).success = true :=
  ⟨(like_photo_total_result "p" FetchOutcome.networkError).1 rfl,
   ((like_photo_total_result "p" (FetchOutcome.response true
       (LikeBody.withPhoto (some 7)))).2 rfl).1⟩
